import Mathlib

/-!
Verification of the Wrap 'n' Shake docking/washing pipeline.

This file gives a shallow embedding of the core routines of the repository
(`scripts/mask_pdbqt.py`, `scripts/wrap_n_shake_docking.py`,
`scripts/washing_cycle.py`, `utils/state_manager.py`) and proves or refutes
the frozen specification claims about them.

Modelling conventions:
* Python floats are modelled as rationals; `math.sqrt` comparisons
  `sqrt s < c` / `sqrt s > c` are encoded by the decidable rational
  predicates `distLt` / `sqrtGtQ`, proved equivalent to the real
  square-root comparisons in `distLt_iff_sqrt` / `sqrtGtQ_iff_sqrt`.
* Text lines are modelled as `List Char`, both for the PDBQT masking code
  (whose whole point is fixed-column slicing) and for the GROMACS topology
  code (whose Python string primitives are embedded as structural
  recursions on character lists).
* External engines (AutoDock, GROMACS) are opaque: they appear as function
  parameters or as recorded invocation counts, and their output files are
  inputs of the model.
-/

/-- A 3-D coordinate, as parsed from the fixed-column float fields. -/
abbrev Coord3 : Type := ℚ × ℚ × ℚ

/-- Squared Euclidean distance; the Python code computes
`math.sqrt` of exactly this quantity (`calculate_distance` in both
`mask_pdbqt.py` and `washing_cycle.py`). -/
def dist2 (c1 c2 : Coord3) : ℚ :=
  (c1.1 - c2.1) ^ 2 + (c1.2.1 - c2.2.1) ^ 2 + (c1.2.2 - c2.2.2) ^ 2

/-- The real-valued distance computed by `calculate_distance`. -/
noncomputable def calculate_distance (c1 c2 : Coord3) : ℝ :=
  Real.sqrt ((dist2 c1 c2 : ℚ) : ℝ)

/-- Decidable encoding of the comparison `calculate_distance c1 c2 < cutoff`
used by `find_atoms_to_mask` and `check_ligand_clash`. -/
def distLt (c1 c2 : Coord3) (cutoff : ℚ) : Bool :=
  decide (0 < cutoff ∧ dist2 c1 c2 < cutoff ^ 2)

/-- Decidable encoding of the comparison `sqrt s > cutoff` used by the
washing-cycle eviction predicate (`disp > displacement_cutoff`),
applied to a squared displacement `s` (always nonnegative). -/
def sqrtGtQ (s cutoff : ℚ) : Bool :=
  decide (cutoff < 0 ∨ cutoff ^ 2 < s)

theorem dist2_nonneg (c1 c2 : Coord3) : 0 ≤ dist2 c1 c2 := by
  unfold dist2; positivity

theorem dist2_comm (c1 c2 : Coord3) : dist2 c1 c2 = dist2 c2 c1 := by
  unfold dist2; ring

/-- The rational encoding `distLt` agrees with the square-root comparison
performed by the Python code. -/
theorem distLt_iff_sqrt (c1 c2 : Coord3) (cutoff : ℚ) :
    distLt c1 c2 cutoff = true ↔ calculate_distance c1 c2 < (cutoff : ℝ) := by
  unfold distLt calculate_distance
  rw [decide_eq_true_iff]
  constructor
  · rintro ⟨hc, hlt⟩
    have hc' : (0 : ℝ) < (cutoff : ℝ) := by exact_mod_cast hc
    rw [Real.sqrt_lt' hc']
    exact_mod_cast hlt
  · intro h
    have hnn : (0 : ℝ) ≤ Real.sqrt ((dist2 c1 c2 : ℚ) : ℝ) := Real.sqrt_nonneg _
    have hc' : (0 : ℝ) < (cutoff : ℝ) := lt_of_le_of_lt hnn h
    rw [Real.sqrt_lt' hc'] at h
    exact ⟨by exact_mod_cast hc', by exact_mod_cast h⟩

/-- The rational encoding `sqrtGtQ` agrees with the square-root comparison
performed by the Python code (for nonnegative radicands, which is the only
use: `s` is a squared distance). -/
theorem sqrtGtQ_iff_sqrt (s cutoff : ℚ) :
    sqrtGtQ s cutoff = true ↔ (cutoff : ℝ) < Real.sqrt ((s : ℚ) : ℝ) := by
  unfold sqrtGtQ
  rw [decide_eq_true_iff]
  constructor
  · rintro (hneg | hlt)
    · exact lt_of_lt_of_le (by exact_mod_cast hneg) (Real.sqrt_nonneg _)
    · rcases lt_or_le cutoff 0 with hneg | hpos
      · exact lt_of_lt_of_le (by exact_mod_cast hneg) (Real.sqrt_nonneg _)
      · have hpos' : (0 : ℝ) ≤ (cutoff : ℝ) := by exact_mod_cast hpos
        rw [Real.lt_sqrt hpos']
        exact_mod_cast hlt
  · intro h
    rcases lt_or_le cutoff 0 with hneg | hpos
    · exact Or.inl hneg
    · right
      have hpos' : (0 : ℝ) ≤ (cutoff : ℝ) := by exact_mod_cast hpos
      rw [Real.lt_sqrt hpos'] at h
      exact_mod_cast h

/-! ## Collision Detector (`check_ligand_clash`, wrap_n_shake_docking.py) -/

/-- One line of a pose file, as seen by `check_ligand_clash`: a line starting
with `ATOM`/`HETATM` whose three coordinate columns parse as floats
contributes `some coord`; every other line (non-atom record, or a parse
failure caught by the `try/except`) contributes `none` and is skipped. -/
abbrev PoseLine : Type := Option Coord3

/-- A pose file: its sequence of lines. -/
abbrev Pose : Type := List PoseLine

/-- The atom-coordinate list the code accumulates from a pose file. -/
def parse_pose_atoms (p : Pose) : List Coord3 :=
  p.filterMap id

/-- Shallow embedding of `check_ligand_clash(new_ligand_path, existing_ligands,
min_distance)`: an empty accepted list returns `False` first; then a candidate
with no parsable atoms returns `True`; otherwise it reports whether some
atom pair across the candidate and some accepted pose is strictly below
`min_distance`. -/
def check_ligand_clash (new_ligand : Pose) (existing_ligands : List Pose)
    (min_distance : ℚ) : Bool :=
  if existing_ligands = [] then false
  else
    let new_atoms := parse_pose_atoms new_ligand
    if new_atoms = [] then true
    else
      existing_ligands.any fun existing_ligand =>
        new_atoms.any fun new_coord =>
          (parse_pose_atoms existing_ligand).any fun existing_coord =>
            distLt new_coord existing_coord min_distance

theorem bool_eq_of_iff {a b : Bool} (h : a = true ↔ b = true) : a = b := by
  cases a <;> cases b <;> simp_all

theorem list_any_swap {α β : Type} (xs : List α) (ys : List β) (p : α → β → Bool) :
    (xs.any fun x => ys.any fun y => p x y) =
      (ys.any fun y => xs.any fun x => p x y) := by
  apply bool_eq_of_iff
  simp only [List.any_eq_true]
  constructor
  · rintro ⟨x, hx, y, hy, hp⟩; exact ⟨y, hy, x, hx, hp⟩
  · rintro ⟨y, hy, x, hx, hp⟩; exact ⟨x, hx, y, hy, hp⟩

theorem distLt_comm (c1 c2 : Coord3) (d : ℚ) : distLt c1 c2 d = distLt c2 c1 d := by
  unfold distLt
  rw [dist2_comm]

/-- C2 counterexample: a candidate with zero parsable atom lines checked
against the EMPTY accepted list returns `false`, not `true` — the
empty-accepted-list test precedes the malformed-candidate test, so the
claim's "including the empty list" fails on the code. -/
theorem c2_zero_atom_empty_list_counterexample :
    check_ligand_clash ([none] : Pose) ([] : List Pose) 2 = false := by
  rfl

/-- C2 (amended): every candidate with zero parsable atoms is reported as a
clash against every NONEMPTY accepted list (first conjunct); and EVERY
candidate — with or without parsable atoms — checked against an empty
accepted list yields no clash, because the empty-list test runs first
(second conjunct). -/
theorem c2_malformed_clash_amended (d : ℚ) :
    (∀ (cand : Pose) (existing : List Pose), existing ≠ [] →
      parse_pose_atoms cand = [] → check_ligand_clash cand existing d = true) ∧
    ∀ cand : Pose, check_ligand_clash cand [] d = false := by
  constructor
  · intro cand existing hne hmal
    unfold check_ligand_clash
    rw [if_neg hne, hmal]
    simp
  · intro cand
    unfold check_ligand_clash
    simp

/-- Witness for `c2_malformed_clash_amended`: the first conjunct at a
concrete malformed candidate against a singleton accepted list, the second
at a concrete WELL-FORMED one-atom candidate against the empty list. -/
theorem c2_malformed_clash_amended_witness :
    check_ligand_clash ([none] : Pose) [[some ((0 : ℚ), (0 : ℚ), (0 : ℚ))]] 2 = true ∧
      check_ligand_clash [some ((1 : ℚ), (1 : ℚ), (1 : ℚ))] [] 2 = false :=
  ⟨(c2_malformed_clash_amended 2).1 [none] [[some ((0 : ℚ), (0 : ℚ), (0 : ℚ))]]
      (by simp) rfl,
    (c2_malformed_clash_amended 2).2 [some ((1 : ℚ), (1 : ℚ), (1 : ℚ))]⟩

/-- C9 counterexample: symmetry fails when exactly one pose has zero parsable
atoms — the malformed candidate `A = [none]` clashes against `[B]`, but `B`
does not clash against `[A]` (the accepted pose's atom list is simply empty). -/
theorem c9_clash_asymmetry_counterexample :
    check_ligand_clash ([none] : Pose) [[some ((0 : ℚ), (0 : ℚ), (0 : ℚ))]] 2 = true ∧
      check_ligand_clash [some ((0 : ℚ), (0 : ℚ), (0 : ℚ))] [([none] : Pose)] 2 = false := by
  constructor <;> rfl

/-- C9 (amended): the collision check restricted to a single accepted pose is
symmetric whenever BOTH poses have at least one parsable atom; the defensive
`true` for a candidate with zero parsable atoms has no counterpart on the
accepted side, which is the only source of asymmetry. -/
theorem c9_clash_symm_amended (A B : Pose) (d : ℚ)
    (hA : parse_pose_atoms A ≠ []) (hB : parse_pose_atoms B ≠ []) :
    check_ligand_clash A [B] d = check_ligand_clash B [A] d := by
  unfold check_ligand_clash
  rw [if_neg (by simp : ([B] : List Pose) ≠ []),
      if_neg (by simp : ([A] : List Pose) ≠ [])]
  simp only [if_neg hA, if_neg hB, List.any_cons, List.any_nil, Bool.or_false]
  rw [list_any_swap]
  congr 1
  funext y
  congr 1
  funext x
  exact distLt_comm x y d

/-- Witness for `c9_clash_symm_amended` at two concrete one-atom poses. -/
theorem c9_clash_symm_amended_witness :
    check_ligand_clash [some ((0 : ℚ), (0 : ℚ), (0 : ℚ))]
        [[some ((1 : ℚ), (1 : ℚ), (1 : ℚ))]] 2 =
      check_ligand_clash [some ((1 : ℚ), (1 : ℚ), (1 : ℚ))]
        [[some ((0 : ℚ), (0 : ℚ), (0 : ℚ))]] 2 :=
  c9_clash_symm_amended _ _ 2 (by simp [parse_pose_atoms]) (by simp [parse_pose_atoms])

/-! ## Spatial Masking Engine (`mask_pdbqt.py`)

An `AtomRecord` of `mask_pdbqt.py` keeps the raw line plus the fields the
constructor parses from it: the coordinate triple from columns 31-54 and the
`ATOM`/`HETATM` flag.  The fixed-column rewriting (`set_atom_type`,
`set_charge`) is embedded verbatim on `List Char`. -/

/-- Python `str.ljust(n)` with space fill. -/
def pyLjust (l : List Char) (n : ℕ) : List Char :=
  l ++ List.replicate (n - l.length) ' '

/-- Python `str.rjust(n)` with space fill. -/
def pyRjust (l : List Char) (n : ℕ) : List Char :=
  List.replicate (n - l.length) ' ' ++ l

/-- Python `str.strip()` (default whitespace). -/
def pystrip (l : List Char) : List Char :=
  ((l.dropWhile Char.isWhitespace).reverse.dropWhile Char.isWhitespace).reverse

/-- The `AtomRecord` of `mask_pdbqt.py`: the raw line, the coordinate parsed
from columns 31-54 (or `(0,0,0)` for short lines), and
`line.startswith(("ATOM", "HETATM"))`. -/
structure MaskAtom where
  line : List Char
  coord : Coord3
  is_atom : Bool

/-- `AtomRecord.set_atom_type`: writes `atom_type.rjust(2)` into slice
`[77:79)` (columns 78-79), extending short lines to width 79. -/
def set_atom_type (line : List Char) (atom_type : List Char) : List Char :=
  if 79 ≤ line.length then
    line.take 77 ++ pyRjust atom_type 2 ++ line.drop 79
  else
    (pyLjust line 79).take 77 ++ pyRjust atom_type 2

/-- The string `f"{0.000:8.4f}"` produced by `AtomRecord.set_charge` for the
charge `0.000` used by `mask_receptor` — eight characters. -/
def charge_str_zero : List Char := "  0.0000".toList

/-- `AtomRecord.set_charge`: splices the 8-character formatted charge as
`line[:70] + charge_str + line[78:]` — it therefore occupies slice `[70:78)`,
although the docstring says columns 71-76. -/
def set_charge (line : List Char) (charge_str : List Char) : List Char :=
  if 77 ≤ line.length then
    line.take 70 ++ charge_str ++ line.drop 78
  else
    pyLjust line 70 ++ charge_str

/-- `AtomRecord.get_atom_type`: `line[77:79].strip()` for lines of length at
least 79, else the empty string. -/
def get_atom_type (line : List Char) : List Char :=
  if 79 ≤ line.length then pystrip ((line.drop 77).take 2) else []

/-- The enumeration loop of `find_atoms_to_mask`, carrying the running index:
a receptor atom index is collected when the record is an atom and some ligand
atom record is within the cutoff (the inner `break` is an existential). -/
def find_atoms_to_mask_from (ligand_atoms : List MaskAtom) (cutoff : ℚ)
    (i : ℕ) : List MaskAtom → List ℕ
  | [] => []
  | rec_atom :: rest =>
    if rec_atom.is_atom &&
        ligand_atoms.any (fun lig =>
          lig.is_atom && distLt rec_atom.coord lig.coord cutoff) then
      i :: find_atoms_to_mask_from ligand_atoms cutoff (i + 1) rest
    else
      find_atoms_to_mask_from ligand_atoms cutoff (i + 1) rest

/-- `find_atoms_to_mask(receptor_atoms, ligand_atoms, cutoff)`. -/
def find_atoms_to_mask (receptor_atoms ligand_atoms : List MaskAtom)
    (cutoff : ℚ) : List ℕ :=
  find_atoms_to_mask_from ligand_atoms cutoff 0 receptor_atoms

/-- The output loop of `mask_receptor`: every input line is written; a line
whose index is in `atoms_to_mask` (and which is an atom record) is first
rewritten by `set_atom_type('X')` followed by `set_charge(0.000)`. -/
def mask_receptor_from (atoms_to_mask : List ℕ) (i : ℕ) :
    List MaskAtom → List (List Char)
  | [] => []
  | atom :: rest =>
    (if i ∈ atoms_to_mask ∧ atom.is_atom then
        set_charge (set_atom_type atom.line ['X']) charge_str_zero
      else atom.line) :: mask_receptor_from atoms_to_mask (i + 1) rest

/-- `mask_receptor`: the written output lines (one per input line). -/
def mask_receptor (receptor_atoms ligand_atoms : List MaskAtom)
    (cutoff : ℚ) : List (List Char) :=
  mask_receptor_from (find_atoms_to_mask receptor_atoms ligand_atoms cutoff) 0
    receptor_atoms

/-- A receptor atom record at the origin with a 79-column line whose atom
type field (columns 78-79) reads `N`. -/
def c1_receptor_atom : MaskAtom :=
  ⟨"ATOM".toList ++ List.replicate 73 ' ' ++ [' ', 'N'],
    ((0 : ℚ), (0 : ℚ), (0 : ℚ)), true⟩

/-- A receptor atom record far from the ligand. -/
def c1_far_atom : MaskAtom :=
  ⟨"ATOM far".toList, ((100 : ℚ), (0 : ℚ), (0 : ℚ)), true⟩

/-- A non-atom line (coordinates parse to the origin default, but
`is_atom` is false). -/
def c1_remark_line : MaskAtom :=
  ⟨"REMARK".toList, ((0 : ℚ), (0 : ℚ), (0 : ℚ)), false⟩

/-- A ligand atom one unit away from `c1_receptor_atom`. -/
def c1_ligand_atom : MaskAtom :=
  ⟨"HETATM".toList, ((1 : ℚ), (0 : ℚ), (0 : ℚ)), true⟩

/-- C1: evaluation of `mask_receptor` at a failing input.  With cutoff 3.5 the
near atom is masked and the far atom, like the non-atom line, passes through
unchanged with the line count preserved — but the masked line's atom-type
field (columns 78-79, as read back by `get_atom_type`) is `0X`, not the
neutral marker `X`: `set_charge` writes its 8-character formatted charge
into slice `[70:78)`, overwriting column 78 that `set_atom_type('X')` had
just set, contradicting both the claim and `set_charge`'s own docstring
(columns 71-76).  The charge slice `[70:76)` read by `get_charge` does
read as zero. -/
theorem c1_mask_type_field_bug :
    (mask_receptor [c1_receptor_atom, c1_far_atom, c1_remark_line]
        [c1_ligand_atom] (7 / 2)).length = 3 ∧
    ((mask_receptor [c1_receptor_atom, c1_far_atom, c1_remark_line]
        [c1_ligand_atom] (7 / 2)).getD 1 [] = c1_far_atom.line) ∧
    ((mask_receptor [c1_receptor_atom, c1_far_atom, c1_remark_line]
        [c1_ligand_atom] (7 / 2)).getD 2 [] = c1_remark_line.line) ∧
    (((mask_receptor [c1_receptor_atom, c1_far_atom, c1_remark_line]
        [c1_ligand_atom] (7 / 2)).getD 0 []).drop 70).take 6 = "  0.00".toList ∧
    get_atom_type ((mask_receptor [c1_receptor_atom, c1_far_atom, c1_remark_line]
        [c1_ligand_atom] (7 / 2)).getD 0 []) = ['0', 'X'] ∧
    get_atom_type ((mask_receptor [c1_receptor_atom, c1_far_atom, c1_remark_line]
        [c1_ligand_atom] (7 / 2)).getD 0 []) ≠ ['X'] := by
  have hmask : find_atoms_to_mask [c1_receptor_atom, c1_far_atom, c1_remark_line]
      [c1_ligand_atom] (7 / 2) = [0] := by
    norm_num [find_atoms_to_mask, find_atoms_to_mask_from, c1_receptor_atom,
      c1_far_atom, c1_remark_line, c1_ligand_atom, distLt, dist2]
  refine ⟨?_, ?_, ?_, ?_, ?_, ?_⟩ <;>
    simp only [mask_receptor, hmask] <;> decide

/-! ## Checkpoint Store (`CheckpointState`, wrap_n_shake_docking.py)

The persisted checkpoint is JSON.  `CheckpointState.load` does
`self.state = json.load(f)` and then logs
`len(self.state['completed_seeds'])`, catching only `JSONDecodeError` and
`KeyError`.  We model a parsed JSON document as `JVal`, and a checkpoint
file as `none` (absent), `some (.error ())` (text rejected by `json.load`),
or `some (.ok j)` (text parsing to `j`). -/

/-- A JSON value, as produced by `json.load`. -/
inductive JVal where
  | jnull : JVal
  | jbool : Bool → JVal
  | jnum : ℚ → JVal
  | jstr : String → JVal
  | jarr : List JVal → JVal
  | jobj : List (String × JVal) → JVal

/-- Dictionary lookup, the Python `d[key]` access on a JSON object. -/
def jlookup (fields : List (String × JVal)) (key : String) : Option JVal :=
  match fields with
  | [] => none
  | (k, v) :: rest => if k = key then some v else jlookup rest key

/-- Python `len()` on a JSON value: defined for strings, arrays and objects,
a `TypeError` (`none`) otherwise. -/
def jlen : JVal → Option ℕ
  | .jstr s => some s.length
  | .jarr xs => some xs.length
  | .jobj fs => some fs.length
  | _ => none

/-- The default state installed by `CheckpointState.__init__` (and by
`reset`). -/
def default_checkpoint_state : JVal :=
  .jobj [("completed_seeds", .jarr []), ("docked_ligand_files", .jarr []),
         ("current_receptor", .jnull), ("autogrid_complete", .jbool false),
         ("successful_docks", .jnum 0)]

/-- A checkpoint file on disk. -/
abbrev CheckpointFile : Type := Option (Except Unit JVal)

/-- `CheckpointState.load`, given the file and the current in-memory state:
returns the pair (return value of `load`, in-memory state afterwards), or an
uncaught Python exception.  An absent file returns `False`; a
`JSONDecodeError` is caught before `self.state` is overwritten; after a
successful parse, `self.state` is already replaced when the logging line
subscripts it, so a `KeyError` there is caught but leaves the parsed value
in memory, and a non-object value raises an uncaught `TypeError`. -/
def checkpoint_load (file : CheckpointFile) (state : JVal) :
    Except String (Bool × JVal) :=
  match file with
  | none => .ok (false, state)
  | some (.error _) => .ok (false, state)
  | some (.ok j) =>
    match j with
    | .jobj fields =>
      match jlookup fields "completed_seeds" with
      | some v =>
        match jlen v with
        | some _ => .ok (true, j)
        | none => .error "TypeError: object of this type has no len"
      | none => .ok (false, j)
    | _ => .error "TypeError: value is not subscriptable by a string key"

/-- `CheckpointState.save`: `json.dump(self.state, f)`.  Modelled as storing
the JSON value itself: the textual `json.dump`/`json.load` round trip is the
identity on the JSON values the pipeline serializes. -/
def checkpoint_save (state : JVal) : CheckpointFile :=
  some (.ok state)

/-- C6: evaluation of `checkpoint_load` at failing inputs.  A checkpoint file
holding the well-formed JSON text of an empty object is malformed as a
checkpoint (every required key is missing): `load` does report not-loaded
without raising, but the in-memory state afterwards is the parsed empty
object, NOT the default fresh state — `self.state` was already overwritten
when the logging access raised the caught `KeyError`, and nothing resets it.
A file holding a JSON array raises an uncaught `TypeError` from the same
access.  Only the `JSONDecodeError` path (fourth conjunct) behaves as the
claim states. -/
theorem c6_corrupt_checkpoint_state_bug :
    checkpoint_load (some (.ok (.jobj []))) default_checkpoint_state =
        .ok (false, .jobj []) ∧
      JVal.jobj [] ≠ default_checkpoint_state ∧
      checkpoint_load (some (.ok (.jarr []))) default_checkpoint_state =
        .error "TypeError: value is not subscriptable by a string key" ∧
      checkpoint_load (some (.error ())) default_checkpoint_state =
        .ok (false, default_checkpoint_state) := by
  refine ⟨rfl, ?_, rfl, rfl⟩
  intro h
  simp [default_checkpoint_state] at h

/-- C8: `load()` directly after `save()` on the same file reports `Loaded`
and yields a state equal to the one saved, for every state that is a JSON
object carrying a sized `completed_seeds` entry — which holds for every
record the pipeline constructs, the default state included. -/
theorem c8_save_load_roundtrip (st init : JVal)
    (fields : List (String × JVal)) (v : JVal) (n : ℕ)
    (hst : st = .jobj fields)
    (hkey : jlookup fields "completed_seeds" = some v)
    (hlen : jlen v = some n) :
    checkpoint_load (checkpoint_save st) init = .ok (true, st) := by
  subst hst
  simp [checkpoint_save, checkpoint_load, hkey, hlen]

/-- Witness for `c8_save_load_roundtrip` at the default checkpoint state. -/
theorem c8_save_load_roundtrip_witness :
    checkpoint_load (checkpoint_save default_checkpoint_state) (.jobj []) =
      .ok (true, default_checkpoint_state) :=
  c8_save_load_roundtrip default_checkpoint_state (.jobj [])
    [("completed_seeds", .jarr []), ("docked_ligand_files", .jarr []),
     ("current_receptor", .jnull), ("autogrid_complete", .jbool false),
     ("successful_docks", .jnum 0)] (.jarr []) 0 rfl rfl rfl

/-! ## Sequential Docking Controller (`run_wrap_n_shake_docking`)

The per-seed loop of `run_wrap_n_shake_docking` (non-dry-run), with the
docking engine abstracted as a function from the current receptor version
and the seed to the extracted best pose.  Receptor versions are numbered;
`mask_receptor` producing the next file is modelled as bumping the version.
The state gathers the loop-local variables together with the checkpoint
fields they mirror (`mark_seed_completed` keeps them in sync), plus the
observable log `invoked` of seeds for which the engine was actually run. -/

/-- Controller state: checkpoint record plus loop-local variables. -/
structure DockSt where
  completed_seeds : List ℤ
  docked_ligands : List Pose
  successful_docks : ℕ
  receptor : ℕ
  invoked : List ℤ

/-- The `for i, seed in enumerate(seeds)` loop: break once
`successful_docks >= max_cycles`; skip seeds already completed; otherwise run
the engine, extract the pose, discard it on a clash (marking the seed
completed with no pose and leaving the receptor alone), and on acceptance
append the pose, bump the counter, mask the receptor when iterations remain
and the cap is not yet reached, and mark the seed completed. -/
def dockLoop (engine : ℕ → ℤ → Pose) (min_ligand_distance : ℚ)
    (max_cycles num_seeds : ℕ) : ℕ → List ℤ → DockSt → DockSt
  | _, [], st => st
  | i, seed :: rest, st =>
    if max_cycles ≤ st.successful_docks then st
    else if seed ∈ st.completed_seeds then
      dockLoop engine min_ligand_distance max_cycles num_seeds (i + 1) rest st
    else
      let pose := engine st.receptor seed
      let st1 : DockSt := { st with invoked := st.invoked ++ [seed] }
      if check_ligand_clash pose st1.docked_ligands min_ligand_distance then
        dockLoop engine min_ligand_distance max_cycles num_seeds (i + 1) rest
          { st1 with completed_seeds := st1.completed_seeds ++ [seed] }
      else
        let st2 : DockSt := { st1 with
          docked_ligands := st1.docked_ligands ++ [pose],
          successful_docks := st1.successful_docks + 1 }
        let st3 : DockSt :=
          if i < num_seeds - 1 ∧ st2.successful_docks < max_cycles then
            { st2 with receptor := st2.receptor + 1 }
          else st2
        dockLoop engine min_ligand_distance max_cycles num_seeds (i + 1) rest
          { st3 with completed_seeds := st3.completed_seeds ++ [seed] }

/-- The fresh controller state of a first run (default checkpoint). -/
def freshDockSt : DockSt := ⟨[], [], 0, 0, []⟩

/-- The whole docking loop over the configured seed list. -/
def run_wrap_n_shake (engine : ℕ → ℤ → Pose) (min_ligand_distance : ℚ)
    (max_cycles : ℕ) (seeds : List ℤ) (st : DockSt) : DockSt :=
  dockLoop engine min_ligand_distance max_cycles seeds.length 0 seeds st

/-- Every seed the loop attempts (invokes the engine for) it also marks
completed, and vice versa: both lists grow by the same suffix. -/
theorem dockLoop_trace (engine : ℕ → ℤ → Pose) (d : ℚ) (cap n : ℕ) :
    ∀ (l : List ℤ) (i : ℕ) (st : DockSt),
      ∃ t, (dockLoop engine d cap n i l st).invoked = st.invoked ++ t ∧
        (dockLoop engine d cap n i l st).completed_seeds =
          st.completed_seeds ++ t := by
  intro l
  induction l with
  | nil => intro i st; exact ⟨[], by simp [dockLoop]⟩
  | cons seed rest ih =>
    intro i st
    by_cases hcap : cap ≤ st.successful_docks
    · exact ⟨[], by simp [dockLoop, hcap]⟩
    · by_cases hmem : seed ∈ st.completed_seeds
      · obtain ⟨t, h1, h2⟩ := ih (i + 1) st
        exact ⟨t, by simpa [dockLoop, hcap, hmem] using And.intro h1 h2⟩
      · by_cases hclash : check_ligand_clash (engine st.receptor seed)
            st.docked_ligands d = true
        · obtain ⟨t, h1, h2⟩ := ih (i + 1)
            { st with invoked := st.invoked ++ [seed],
                      completed_seeds := st.completed_seeds ++ [seed] }
          refine ⟨seed :: t, ?_⟩
          simp only [dockLoop, if_neg hcap, if_neg hmem, if_pos hclash] at *
          simp_all
        · by_cases hmask : i < n - 1 ∧ st.successful_docks + 1 < cap
          · obtain ⟨t, h1, h2⟩ := ih (i + 1)
              { st with invoked := st.invoked ++ [seed],
                        docked_ligands := st.docked_ligands ++ [engine st.receptor seed],
                        successful_docks := st.successful_docks + 1,
                        receptor := st.receptor + 1,
                        completed_seeds := st.completed_seeds ++ [seed] }
            refine ⟨seed :: t, ?_⟩
            simp only [dockLoop, if_neg hcap, if_neg hmem,
              Bool.not_eq_true] at hclash ⊢
            rw [hclash]
            simp only [if_pos hmask] at *
            simp_all
          · obtain ⟨t, h1, h2⟩ := ih (i + 1)
              { st with invoked := st.invoked ++ [seed],
                        docked_ligands := st.docked_ligands ++ [engine st.receptor seed],
                        successful_docks := st.successful_docks + 1,
                        completed_seeds := st.completed_seeds ++ [seed] }
            refine ⟨seed :: t, ?_⟩
            simp only [dockLoop, if_neg hcap, if_neg hmem,
              Bool.not_eq_true] at hclash ⊢
            rw [hclash]
            simp only [if_neg hmask] at *
            simp_all

/-- C3: once the accepted-pose counter has reached the configured cap the
loop is the identity — no engine invocation happens for any remaining seed
(first conjunct); and a fresh run's completed-seed list is exactly its list
of attempted (engine-invoked) seeds, in order — not the full seed list
(second conjunct). -/
theorem c3_cap_stops_and_completed_eq_attempted (engine : ℕ → ℤ → Pose)
    (d : ℚ) (cap : ℕ) (seeds : List ℤ) :
    (∀ (i : ℕ) (l : List ℤ) (st : DockSt), cap ≤ st.successful_docks →
        dockLoop engine d cap seeds.length i l st = st) ∧
      (run_wrap_n_shake engine d cap seeds freshDockSt).completed_seeds =
        (run_wrap_n_shake engine d cap seeds freshDockSt).invoked := by
  constructor
  · intro i l st hcap
    cases l with
    | nil => simp [dockLoop]
    | cons seed rest => simp [dockLoop, hcap]
  · obtain ⟨t, h1, h2⟩ :=
      dockLoop_trace engine d cap seeds.length seeds 0 freshDockSt
    unfold run_wrap_n_shake
    rw [h1, h2]
    simp [freshDockSt]

/-- A concrete docking engine stub: every invocation returns a one-atom pose
at the origin. -/
def c3_engine : ℕ → ℤ → Pose := fun _ _ => [some ((0 : ℚ), (0 : ℚ), (0 : ℚ))]

/-- Witness for `c3_cap_stops_and_completed_eq_attempted`: ten-seeds-cap-one
style scenario with seeds `[10, 20, 30]` and cap 1 — with the cap already
reached the loop leaves the state untouched, and the fresh run attempts and
completes exactly `[10]`, not all of the seed list. -/
theorem c3_cap_stops_and_completed_eq_attempted_witness :
    dockLoop c3_engine 2 1 3 1 [20, 30]
        ⟨[10], [[some ((0 : ℚ), (0 : ℚ), (0 : ℚ))]], 1, 0, [10]⟩ =
      ⟨[10], [[some ((0 : ℚ), (0 : ℚ), (0 : ℚ))]], 1, 0, [10]⟩ ∧
    (run_wrap_n_shake c3_engine 2 1 [10, 20, 30] freshDockSt).completed_seeds =
      (run_wrap_n_shake c3_engine 2 1 [10, 20, 30] freshDockSt).invoked ∧
    (run_wrap_n_shake c3_engine 2 1 [10, 20, 30] freshDockSt).completed_seeds =
      [10] := by
  refine ⟨(c3_cap_stops_and_completed_eq_attempted c3_engine 2 1 [10, 20, 30]).1
      1 [20, 30] _ (by norm_num),
    (c3_cap_stops_and_completed_eq_attempted c3_engine 2 1 [10, 20, 30]).2, ?_⟩
  rfl

/-! ## Displacement-Based Eviction Engine (`washing_cycle.py`)

`AtomRecord` of `washing_cycle.py` parses whitespace-split tokens of a GRO
atom line: atom id, atom name, residue name, residue id, and the coordinate
triple.  The raw line is kept in sync with these fields by the code (the
renumbering step rewrites both), so the embedding carries the parsed fields. -/

/-- The `AtomRecord` of `washing_cycle.py`. -/
structure GAtom where
  atom_id : ℤ
  atom_name : String
  residue_name : String
  residue_id : ℤ
  coord : Coord3
deriving DecidableEq

/-- The atom list of one residue: `get_ligand_residues(atoms, resname)[rid]`
(the dict groups by residue id, appending in order of appearance). -/
def residue_atoms (atoms : List GAtom) (resname : String) (rid : ℤ) : List GAtom :=
  atoms.filter fun a => decide (a.residue_name = resname ∧ a.residue_id = rid)

/-- The residue ids grouped by `get_ligand_residues` (the dict's key set;
its iteration order is irrelevant to every claim below, so the
duplicate-free id list may be taken in any order). -/
def ligand_res_ids (atoms : List GAtom) (resname : String) : List ℤ :=
  ((atoms.filter fun a => decide (a.residue_name = resname)).map
    (fun a => a.residue_id)).dedup

/-- Coordinate-wise sum of a residue's atom coordinates (the accumulation
loops of `calculate_ligand_displacements`). -/
def csum : List GAtom → Coord3
  | [] => ((0 : ℚ), (0 : ℚ), (0 : ℚ))
  | a :: rest =>
    let s := csum rest
    (a.coord.1 + s.1, a.coord.2.1 + s.2.1, a.coord.2.2 + s.2.2)

/-- The squared displacement value `calculate_ligand_displacements` computes
for a residue present in both snapshots.  Note the division: `n_atoms` is
`len(initial_res_atoms)`, and BOTH the initial and the final coordinate sums
are divided by it, exactly as in the source. -/
def code_displacement_sq (init fin : List GAtom) (resname : String)
    (rid : ℤ) : ℚ :=
  let ia := residue_atoms init resname rid
  let fa := residue_atoms fin resname rid
  let n : ℚ := ia.length
  dist2 ((csum ia).1 / n, (csum ia).2.1 / n, (csum ia).2.2 / n)
    ((csum fa).1 / n, (csum fa).2.1 / n, (csum fa).2.2 / n)

/-- The displacement dict of `calculate_ligand_displacements`, as an
association list keyed by residue id: residues present in the initial
snapshot but absent from the final one are skipped (`continue`).  Entries
carry the squared displacement (see `sqrtGtQ` for the comparison encoding). -/
def calculate_ligand_displacements_sq (init fin : List GAtom)
    (resname : String) : List (ℤ × ℚ) :=
  (ligand_res_ids init resname).filterMap fun rid =>
    if residue_atoms fin resname rid = [] then none
    else some (rid, code_displacement_sq init fin resname rid)

/-- The washed-away residue set
`{res_id for res_id, disp in displacements.items() if disp > cutoff}`. -/
def washed_residues (init fin : List GAtom) (resname : String)
    (cutoff : ℚ) : List ℤ :=
  (calculate_ligand_displacements_sq init fin resname).filterMap fun p =>
    if sqrtGtQ p.2 cutoff then some p.1 else none

/-- Specification-side definition, following the spec's words: the squared
center-of-mass displacement, each centroid divided by its OWN residue's atom
count (to be compared with `code_displacement_sq`). -/
def spec_com_displacement_sq (init fin : List GAtom) (resname : String)
    (rid : ℤ) : ℚ :=
  let ia := residue_atoms init resname rid
  let fa := residue_atoms fin resname rid
  dist2 ((csum ia).1 / ia.length, (csum ia).2.1 / ia.length,
      (csum ia).2.2 / ia.length)
    ((csum fa).1 / fa.length, (csum fa).2.1 / fa.length,
      (csum fa).2.2 / fa.length)

theorem washed_residues_eq_filter (init fin : List GAtom) (resname : String)
    (cutoff : ℚ) :
    washed_residues init fin resname cutoff =
      (ligand_res_ids init resname).filter fun rid =>
        decide (residue_atoms fin resname rid ≠ []) &&
          sqrtGtQ (code_displacement_sq init fin resname rid) cutoff := by
  unfold washed_residues calculate_ligand_displacements_sq
  induction ligand_res_ids init resname with
  | nil => rfl
  | cons rid rest ih =>
    by_cases hfin : residue_atoms fin resname rid = []
    · simpa [hfin] using ih
    · by_cases hgt :
          sqrtGtQ (code_displacement_sq init fin resname rid) cutoff = true
      · simpa [hfin, hgt] using ih
      · simpa [hfin, hgt] using ih

theorem mem_ligand_res_ids (atoms : List GAtom) (resname : String) (rid : ℤ) :
    rid ∈ ligand_res_ids atoms resname ↔
      residue_atoms atoms resname rid ≠ [] := by
  unfold ligand_res_ids residue_atoms
  rw [List.mem_dedup, List.mem_map]
  constructor
  · rintro ⟨a, ha, rfl⟩
    rw [List.mem_filter, decide_eq_true_iff] at ha
    intro hnil
    rw [List.filter_eq_nil_iff] at hnil
    exact hnil a ha.1 (by simp [ha.2])
  · intro hnil
    rcases List.exists_mem_of_ne_nil _ hnil with ⟨a, ha⟩
    rw [List.mem_filter, decide_eq_true_iff] at ha
    exact ⟨a, List.mem_filter.mpr ⟨ha.1, by simp [ha.2.1]⟩, ha.2.2⟩

theorem mem_washed_iff (init fin : List GAtom) (resname : String)
    (cutoff : ℚ) (rid : ℤ) :
    rid ∈ washed_residues init fin resname cutoff ↔
      (residue_atoms init resname rid ≠ [] ∧
        residue_atoms fin resname rid ≠ [] ∧
        sqrtGtQ (code_displacement_sq init fin resname rid) cutoff = true) := by
  rw [washed_residues_eq_filter, List.mem_filter, mem_ligand_res_ids]
  simp [and_assoc]

theorem washed_residues_nodup (init fin : List GAtom) (resname : String)
    (cutoff : ℚ) : (washed_residues init fin resname cutoff).Nodup := by
  rw [washed_residues_eq_filter]
  exact (List.nodup_dedup _).filter _

theorem not_mem_displacement_keys_of_absent (init fin : List GAtom)
    (resname : String) (rid : ℤ)
    (habs : residue_atoms fin resname rid = []) :
    rid ∉ (calculate_ligand_displacements_sq init fin resname).map Prod.fst := by
  unfold calculate_ligand_displacements_sq
  intro hmem
  rw [List.mem_map] at hmem
  rcases hmem with ⟨p, hp, hfst⟩
  rw [List.mem_filterMap] at hp
  rcases hp with ⟨r0, _, hsome⟩
  by_cases hfin : residue_atoms fin resname r0 = []
  · rw [if_pos hfin] at hsome
    cases hsome
  · rw [if_neg hfin] at hsome
    injection hsome with hpair
    have hr : r0 = rid := by
      have h0 := congrArg Prod.fst hpair
      simpa [hfst] using h0
    exact hfin (by rw [hr]; exact habs)

theorem code_displacement_eq_spec (init fin : List GAtom) (resname : String)
    (rid : ℤ)
    (hlen : (residue_atoms init resname rid).length =
      (residue_atoms fin resname rid).length) :
    code_displacement_sq init fin resname rid =
      spec_com_displacement_sq init fin resname rid := by
  simp only [code_displacement_sq, spec_com_displacement_sq]
  rw [hlen]

/-- Two-atom residue 1 at the origin in the initial snapshot. -/
def c4_init : List GAtom :=
  [⟨1, "C1", "LIG", 1, ((0 : ℚ), (0 : ℚ), (0 : ℚ))⟩,
   ⟨2, "C2", "LIG", 1, ((0 : ℚ), (0 : ℚ), (0 : ℚ))⟩]

/-- The same residue in the final snapshot, down to one atom at x = 10. -/
def c4_fin : List GAtom :=
  [⟨1, "C1", "LIG", 1, ((10 : ℚ), (0 : ℚ), (0 : ℚ))⟩]

/-- C4 counterexample: residue 1 is present in both snapshots and its
center-of-mass displacement is 10, strictly greater than the cutoff 6, yet
the code does not evict it: `calculate_ligand_displacements` divides the
final coordinate sum by `n_atoms = len(initial_res_atoms)` (2 instead of 1),
yielding the value 5 < 6. -/
theorem c4_wrong_divisor_counterexample :
    residue_atoms c4_init "LIG" 1 ≠ [] ∧
    residue_atoms c4_fin "LIG" 1 ≠ [] ∧
    sqrtGtQ (spec_com_displacement_sq c4_init c4_fin "LIG" 1) 6 = true ∧
    (1 : ℤ) ∉ washed_residues c4_init c4_fin "LIG" 6 := by
  refine ⟨by decide, by decide, ?_, ?_⟩
  · norm_num [spec_com_displacement_sq, residue_atoms, c4_init, c4_fin, csum,
      dist2, sqrtGtQ]
  · intro hmem
    rw [mem_washed_iff] at hmem
    have hval : sqrtGtQ (code_displacement_sq c4_init c4_fin "LIG" 1) 6 = false := by
      norm_num [code_displacement_sq, residue_atoms, c4_init, c4_fin, csum,
        dist2, sqrtGtQ]
    simp [hval] at hmem

/-- C4 (amended): for every pair of snapshots and cutoff, a residue present
in both snapshots WITH THE SAME ATOM COUNT in each is evicted iff its
center-of-mass displacement strictly exceeds the cutoff (first conjunct; the
code's displacement value equals the center-of-mass displacement exactly when
the atom counts agree); a residue present initially but absent finally is
skipped — no displacement entry, not evicted, and (being a total function)
no error (second conjunct); and a same-count residue whose displacement
equals the cutoff exactly is kept (third conjunct). -/
theorem c4_eviction_predicate_amended (init fin : List GAtom) (resname : String)
    (cutoff : ℚ) (rid : ℤ) :
    (residue_atoms init resname rid ≠ [] →
      residue_atoms fin resname rid ≠ [] →
      (residue_atoms init resname rid).length =
        (residue_atoms fin resname rid).length →
      (rid ∈ washed_residues init fin resname cutoff ↔
        sqrtGtQ (spec_com_displacement_sq init fin resname rid) cutoff = true)) ∧
    (residue_atoms fin resname rid = [] →
      rid ∉ washed_residues init fin resname cutoff ∧
      rid ∉ (calculate_ligand_displacements_sq init fin resname).map Prod.fst) ∧
    (0 ≤ cutoff →
      (residue_atoms init resname rid).length =
        (residue_atoms fin resname rid).length →
      spec_com_displacement_sq init fin resname rid = cutoff ^ 2 →
      rid ∉ washed_residues init fin resname cutoff) := by
  refine ⟨?_, ?_, ?_⟩
  · intro h1 h2 hlen
    rw [mem_washed_iff, code_displacement_eq_spec init fin resname rid hlen]
    simp [h1, h2]
  · intro habs
    refine ⟨?_, not_mem_displacement_keys_of_absent init fin resname rid habs⟩
    rw [mem_washed_iff]
    rintro ⟨_, h2, _⟩
    exact h2 habs
  · intro hc hlen heq
    rw [mem_washed_iff, code_displacement_eq_spec init fin resname rid hlen, heq]
    rintro ⟨_, _, h3⟩
    unfold sqrtGtQ at h3
    rw [decide_eq_true_iff] at h3
    rcases h3 with h | h
    · exact absurd hc (not_le.mpr h)
    · exact lt_irrefl _ h

/-- Initial snapshot for the C4 witness: residue 1 (one atom, origin) and
residue 2 (one atom), the latter absent from the final snapshot. -/
def w4_init : List GAtom :=
  [⟨1, "C1", "LIG", 1, ((0 : ℚ), (0 : ℚ), (0 : ℚ))⟩,
   ⟨2, "C2", "LIG", 2, ((0 : ℚ), (0 : ℚ), (0 : ℚ))⟩]

/-- Final snapshot for the C4 witness: residue 1 moved to x = 10, residue 2
vanished. -/
def w4_fin : List GAtom :=
  [⟨1, "C1", "LIG", 1, ((10 : ℚ), (0 : ℚ), (0 : ℚ))⟩]

/-- Witness for `c4_eviction_predicate_amended`: concrete same-count residue
1 (eviction iff its center-of-mass displacement exceeds the cutoff) and
concrete vanished residue 2 (skipped). -/
theorem c4_eviction_predicate_amended_witness :
    ((1 : ℤ) ∈ washed_residues w4_init w4_fin "LIG" 6 ↔
      sqrtGtQ (spec_com_displacement_sq w4_init w4_fin "LIG" 1) 6 = true) ∧
    ((2 : ℤ) ∉ washed_residues w4_init w4_fin "LIG" 6 ∧
      (2 : ℤ) ∉ (calculate_ligand_displacements_sq w4_init w4_fin "LIG").map
        Prod.fst) :=
  ⟨(c4_eviction_predicate_amended w4_init w4_fin "LIG" 6 1).1
      (by decide) (by decide) (by decide),
    (c4_eviction_predicate_amended w4_init w4_fin "LIG" 6 2).2.1 (by decide)⟩

/-! ### Equilibration-parameter validation (`validate_annealing_mdp`)

The regexes extract `nsteps` (digits), `dt` (digits and dots) and the
`annealing-time` list from the file text; a missing match is `none`. -/

/-- The extracted fields of `annealing.mdp`. -/
structure MdpParams where
  nsteps : Option ℕ
  dt : Option ℚ
  annealing_times : Option (List ℚ)

/-- Python `max()` on a list: `ValueError` (`none`) on an empty list. -/
def pymax : List ℚ → Option ℚ
  | [] => none
  | x :: xs => some (xs.foldl max x)

/-- `validate_annealing_mdp(mdp_file, cycle_time)` (the file-existence check
is subsumed by the caller's required-files check).  Missing fields and an
annealing schedule exceeding the total simulation time raise; a total
duration differing from `cycle_time` by more than 0.01 ns only PRINTS a
warning — the returned flag records whether it was printed. -/
def validate_annealing_mdp (m : MdpParams) (cycle_time : ℚ) :
    Except String Bool :=
  match m.nsteps, m.dt with
  | some nsteps, some dt =>
    let total_time_ps : ℚ := nsteps * dt * 1000
    match m.annealing_times with
    | none => .error "Could not find annealing-time in annealing.mdp"
    | some ts =>
      match pymax ts with
      | none => .error "ValueError: max of an empty sequence"
      | some max_annealing_time =>
        if total_time_ps < max_annealing_time then
          .error "Annealing time exceeds total simulation time"
        else
          let expected_time_ns := total_time_ps / 1000
          .ok (decide (1 / 100 < |expected_time_ns - cycle_time|))
  | _, _ => .error "Could not find nsteps or dt in annealing.mdp"

/-! ### Topology update (`update_topology_file`)

Topology lines are `List Char`; the Python string primitives the code uses
(`in`, `strip().startswith`, `split()`, `int()`, `' '.join`) are embedded
as structural recursions so that concrete runs compute. -/

/-- Python list/string prefix test. -/
def isPrefixList : List Char → List Char → Bool
  | [], _ => true
  | _ :: _, [] => false
  | p :: ps, c :: cs => p = c && isPrefixList ps cs

/-- Python `pat in line` substring test (for nonempty `pat`). -/
def containsSub (pat : List Char) : List Char → Bool
  | [] => isPrefixList pat []
  | c :: rest => isPrefixList pat (c :: rest) || containsSub pat rest

/-- Python `line.strip().startswith(";")`. -/
def is_comment_line (l : List Char) : Bool :=
  isPrefixList [';'] (pystrip l)

/-- Accumulator pass of Python `str.split()` (split on whitespace runs,
dropping empty tokens). -/
def pysplitAux : List Char → List Char → List (List Char)
  | [], acc => if acc = [] then [] else [acc.reverse]
  | c :: rest, acc =>
    if c.isWhitespace then
      if acc = [] then pysplitAux rest []
      else acc.reverse :: pysplitAux rest []
    else pysplitAux rest (c :: acc)

/-- Python `str.split()` with no arguments. -/
def pysplit (l : List Char) : List (List Char) :=
  pysplitAux l []

/-- Digit-run accumulator for `int()`. -/
def digitsToNatAux : List Char → ℕ → Option ℕ
  | [], acc => some acc
  | c :: rest, acc =>
    if c.isDigit then digitsToNatAux rest (acc * 10 + (c.toNat - '0'.toNat))
    else none

/-- Python `int(token)` on a whitespace-free token: optional sign followed by
a nonempty digit run; `none` is the `ValueError`. -/
def pyint : List Char → Option ℤ
  | '-' :: rest =>
    if rest = [] then none else (digitsToNatAux rest 0).map (fun n => -(n : ℤ))
  | '+' :: rest =>
    if rest = [] then none else (digitsToNatAux rest 0).map (fun n => (n : ℤ))
  | l => if l = [] then none else (digitsToNatAux l 0).map (fun n => (n : ℤ))

/-- Python `' '.join(parts)`. -/
def joinSpace : List (List Char) → List Char
  | [] => []
  | [w] => w
  | w :: rest => w ++ ' ' :: joinSpace rest

/-- Python `str(z)` for an integer. -/
def intToChars (z : ℤ) : List Char :=
  if z < 0 then '-' :: Nat.toDigits 10 z.natAbs else Nat.toDigits 10 z.natAbs

/-- One step of the molecules-section scan: `some updated_line` when this
line contains the residue name, is not a comment, splits into at least two
tokens and its second token parses as an integer — in which case the count
becomes `max(0, original - removed)` and the line is rejoined with single
spaces; `none` (scan continues) otherwise. -/
def try_update_mol_line (resname : List Char) (removed_count : ℕ)
    (line : List Char) : Option (List Char) :=
  if containsSub resname line && !is_comment_line line then
    let parts := pysplit line
    match parts with
    | p0 :: p1 :: ptail =>
      match pyint p1 with
      | some original_count =>
        some (joinSpace
          (p0 :: intToChars (max 0 (original_count - (removed_count : ℤ))) :: ptail))
      | none => none
    | _ => none
  else none

/-- The scan over the lines from `molecules_start` on: rewrite the first line
`try_update_mol_line` accepts, keep everything else; `none` when no line
matches (the `ValueError` path). -/
def update_mol_lines (resname : List Char) (removed_count : ℕ) :
    List (List Char) → Option (List (List Char))
  | [] => none
  | line :: rest =>
    match try_update_mol_line resname removed_count line with
    | some line2 => some (line2 :: rest)
    | none =>
      match update_mol_lines resname removed_count rest with
      | some rest2 => some (line :: rest2)
      | none => none

/-- `update_topology_file(topol_file, ligand_resname, removed_residues)`:
find the first line containing `[ molecules ]`, skip it and the next line
(`molecules_start = i + 2`), update the first matching ligand record, and
write the lines back; `ValueError` when the section or the record is
missing. -/
def update_topology_file (lines : List (List Char)) (resname : List Char)
    (removed_count : ℕ) : Except String (List (List Char)) :=
  match lines.findIdx? (fun l => containsSub "[ molecules ]".toList l) with
  | none => .error "Could not find molecules section in topology"
  | some i =>
    let molecules_start := i + 2
    match update_mol_lines resname removed_count (lines.drop molecules_start) with
    | none => .error "Could not find ligand in molecules section"
    | some tail => .ok (lines.take molecules_start ++ tail)

/-! ### The washing cycle driver (`washing_cycle`) -/

/-- A parsed GRO coordinate file: title line, atom records, box line.
`read_gro_file` also reads the atom-count line; `write_gro_file` always
writes `len(atoms)` as the count, so the count is `atoms.length` here. -/
structure GroFile where
  header : List Char
  atoms : List GAtom
  footer : List Char
deriving DecidableEq

/-- The renumbering loop
`for i, atom in enumerate(filtered_atoms): atom.atom_id = i + 1` (the raw
line's first token is rewritten to the same value). -/
def renumber_atoms_from (n : ℤ) : List GAtom → List GAtom
  | [] => []
  | a :: rest => { a with atom_id := n } :: renumber_atoms_from (n + 1) rest

/-- The atom-removal predicate of the filtering step:
`atom.residue_name == ligand_resname and atom.residue_id in washed_residues`. -/
def evicted_atom (resname : String) (washed : List ℤ) (a : GAtom) : Bool :=
  decide (a.residue_name = resname) && decide (a.residue_id ∈ washed)

/-- Inputs of one washing cycle: whether the required files
(`topol.top`, `npt.gro`, `annealing.mdp`) all exist, the extracted
equilibration parameters, the authoritative snapshot `npt.gro`, the topology
lines, and the final frame `final.gro` produced by the external engine
(grompp/mdrun/trjconv are opaque; the cycle aborts with all files untouched
if any of them fails, so the model takes their successful output as input). -/
structure WashInput where
  files_present : Bool
  mdp : MdpParams
  npt : GroFile
  topol : List (List Char)
  final_frame : List GAtom

/-- Observable outcome of a cycle: how many external MD-engine commands ran
(grompp + mdrun + trjconv), how many `make_ndx` index regenerations ran, the
resulting `npt.gro` and `topol.top`, the `filtered.gro` snapshot if one was
written, and whether the duration-mismatch warning was printed. -/
structure WashOutcome where
  md_engine_calls : ℕ
  index_regens : ℕ
  npt : GroFile
  topol : List (List Char)
  filtered : Option GroFile
  warned : Bool
deriving DecidableEq

/-- `washing_cycle(work_dir, gmx_exe, ligand_resname, displacement_cutoff,
cycle_time)`: check required files; validate the mdp; regenerate index files
(one `make_ndx`); read `npt.gro`; return early when no ligand residues are
present; run grompp/mdrun/trjconv; compute displacements against the final
frame; return early (nothing rewritten) when no residue washed away;
otherwise write `filtered.gro` (pre-renumbering ids), update the topology,
renumber the filtered atoms from 1 and overwrite `npt.gro`, and regenerate
index files once more. -/
def washing_cycle (inp : WashInput) (ligand_resname : String)
    (displacement_cutoff cycle_time : ℚ) : Except String WashOutcome :=
  if inp.files_present = false then
    .error "Required file not found"
  else
    match validate_annealing_mdp inp.mdp cycle_time with
    | .error e => .error e
    | .ok warned =>
      let initial_atoms := inp.npt.atoms
      if ligand_res_ids initial_atoms ligand_resname = [] then
        .ok ⟨0, 1, inp.npt, inp.topol, none, warned⟩
      else
        let final_atoms := inp.final_frame
        let washed :=
          washed_residues initial_atoms final_atoms ligand_resname
            displacement_cutoff
        if washed = [] then
          .ok ⟨3, 1, inp.npt, inp.topol, none, warned⟩
        else
          let filtered_atoms :=
            final_atoms.filter fun a => !evicted_atom ligand_resname washed a
          let filtered_file : GroFile :=
            ⟨inp.npt.header, filtered_atoms, inp.npt.footer⟩
          match update_topology_file inp.topol ligand_resname.toList
              washed.length with
          | .error e => .error e
          | .ok topol2 =>
            let renumbered := renumber_atoms_from 1 filtered_atoms
            .ok ⟨3, 2, ⟨inp.npt.header, renumbered, inp.npt.footer⟩, topol2,
              some filtered_file, warned⟩

/-- Shared helper: a cycle that finds ligands but washes none away returns
successfully having run the engine, with `npt.gro` and `topol.top` exactly
as given and no `filtered.gro` written. -/
theorem washing_cycle_no_wash (inp : WashInput) (resname : String)
    (cutoff ct : ℚ) (w : Bool)
    (h1 : inp.files_present = true)
    (h2 : validate_annealing_mdp inp.mdp ct = .ok w)
    (h3 : ligand_res_ids inp.npt.atoms resname ≠ [])
    (h4 : washed_residues inp.npt.atoms inp.final_frame resname cutoff = []) :
    washing_cycle inp resname cutoff ct =
      .ok ⟨3, 1, inp.npt, inp.topol, none, w⟩ := by
  unfold washing_cycle
  rw [h1, h2]
  simp only [Bool.true_eq_false, if_false, if_neg h3, if_pos h4]

theorem dist2_self (c : Coord3) : dist2 c c = 0 := by
  unfold dist2; ring

/-- A cycle whose final frame coincides with the initial snapshot washes
nothing away (for a nonnegative cutoff): every displacement is zero. -/
theorem washed_residues_self (atoms : List GAtom) (resname : String)
    (cutoff : ℚ) (h : 0 ≤ cutoff) :
    washed_residues atoms atoms resname cutoff = [] := by
  rw [washed_residues_eq_filter]
  rw [List.filter_eq_nil_iff]
  intro rid _
  have hd : code_displacement_sq atoms atoms resname rid = 0 := by
    simp only [code_displacement_sq]
    exact dist2_self _
  intro hcond
  rw [Bool.and_eq_true] at hcond
  have h3 := hcond.2
  rw [hd] at h3
  unfold sqrtGtQ at h3
  rw [decide_eq_true_iff] at h3
  rcases h3 with h3 | h3
  · exact absurd h (not_le.mpr h3)
  · exact absurd (sq_nonneg cutoff) (not_le.mpr (by simpa [sq] using h3))

/-- C10: a washing cycle in which no residue's displacement strictly exceeds
the cutoff (the washed set is empty) returns right after reporting
displacements: the engine ran, but `npt.gro` and `topol.top` are returned
exactly as the equilibration phase left them, no `filtered.gro` is written,
and the index files were regenerated only once (before the run). -/
theorem c10_no_eviction_leaves_files (inp : WashInput) (resname : String)
    (cutoff ct : ℚ) (w : Bool)
    (h1 : inp.files_present = true)
    (h2 : validate_annealing_mdp inp.mdp ct = .ok w)
    (h3 : ligand_res_ids inp.npt.atoms resname ≠ [])
    (h4 : washed_residues inp.npt.atoms inp.final_frame resname cutoff = []) :
    washing_cycle inp resname cutoff ct =
      .ok ⟨3, 1, inp.npt, inp.topol, none, w⟩ :=
  washing_cycle_no_wash inp resname cutoff ct w h1 h2 h3 h4

/-- A one-ligand demonstration snapshot. -/
def wash_demo_atom : GAtom := ⟨1, "C1", "LIG", 1, ((0 : ℚ), (0 : ℚ), (0 : ℚ))⟩

/-- Its GRO file. -/
def wash_demo_npt : GroFile :=
  ⟨"washing demo".toList, [wash_demo_atom], "1.0 1.0 1.0".toList⟩

/-- An `annealing.mdp` whose configured duration is
`1000 * 0.002 * 1000 = 2000 ps`, i.e. 2 ns, with schedule end 2000 ps. -/
def wash_demo_mdp : MdpParams := ⟨some 1000, some (mkRat 1 500), some [2000]⟩

/-- A complete washing-cycle input whose final frame equals the initial
snapshot (nothing moves). -/
def wash_demo_inp : WashInput :=
  ⟨true, wash_demo_mdp, wash_demo_npt,
    ["[ molecules ]".toList, "; name count".toList, "LIG 1".toList],
    [wash_demo_atom]⟩

/-- Witness for `c10_no_eviction_leaves_files` at the concrete no-motion
input (cycle time 2 ns matches the mdp, so no warning). -/
theorem c10_no_eviction_leaves_files_witness :
    washing_cycle wash_demo_inp "LIG" 6 2 =
      .ok ⟨3, 1, wash_demo_inp.npt, wash_demo_inp.topol, none, false⟩ :=
  c10_no_eviction_leaves_files wash_demo_inp "LIG" 6 2 false rfl
    (by norm_num [validate_annealing_mdp, wash_demo_inp, wash_demo_mdp, pymax])
    (by decide)
    (washed_residues_self [wash_demo_atom] "LIG" 6 (by norm_num))

/-- C5 counterexample: the same input run with a requested cycle time of
1 ns, while the mdp configures 2 ns — a mismatch far beyond the 0.01
tolerance.  Validation does NOT fail: it returns successfully with only the
warning flag set, and the washing cycle proceeds to run the three external
MD-engine commands (`md_engine_calls = 3`), contradicting the claimed fatal
configuration error before any engine invocation. -/
theorem c5_mismatch_only_warns_counterexample :
    validate_annealing_mdp wash_demo_mdp 1 = .ok true ∧
    washing_cycle wash_demo_inp "LIG" 6 1 =
      .ok ⟨3, 1, wash_demo_inp.npt, wash_demo_inp.topol, none, true⟩ := by
  have hv : validate_annealing_mdp wash_demo_mdp 1 = .ok true := by
    norm_num [validate_annealing_mdp, wash_demo_mdp, pymax]
  exact ⟨hv, washing_cycle_no_wash wash_demo_inp "LIG" 6 1 true rfl hv
    (by decide) (washed_residues_self [wash_demo_atom] "LIG" 6 (by norm_num))⟩

/-- C5 (amended): a duration mismatch beyond the 0.01 ns tolerance is NOT
fatal — whenever `nsteps`, `dt` and the annealing schedule are present and
the schedule does not exceed the configured total time, validation returns
successfully for EVERY requested cycle time, with the warning flag recording
whether `nsteps * dt` differs from it beyond the tolerance (first conjunct);
and a cycle whose validation returned ok proceeds to invoke the external
engine regardless of the warning (second conjunct, stated for cycles that
then wash nothing away so that the run completes).  Validation is fatal only
for missing fields or a schedule exceeding the total time. -/
theorem c5_duration_mismatch_warns_amended (m : MdpParams) (ct : ℚ) (ns : ℕ)
    (dt t0 : ℚ) (ts : List ℚ)
    (hns : m.nsteps = some ns) (hdt : m.dt = some dt)
    (hts : m.annealing_times = some (t0 :: ts))
    (hmax : ts.foldl max t0 ≤ (ns : ℚ) * dt * 1000) :
    validate_annealing_mdp m ct = .ok (decide (1 / 100 < |(ns : ℚ) * dt - ct|)) ∧
    ∀ (inp : WashInput) (resname : String) (cutoff : ℚ) (w : Bool),
      inp.files_present = true →
      validate_annealing_mdp inp.mdp ct = .ok w →
      ligand_res_ids inp.npt.atoms resname ≠ [] →
      washed_residues inp.npt.atoms inp.final_frame resname cutoff = [] →
      washing_cycle inp resname cutoff ct =
        .ok ⟨3, 1, inp.npt, inp.topol, none, w⟩ := by
  constructor
  · simp only [validate_annealing_mdp, hns, hdt, hts, pymax]
    rw [if_neg (not_lt.mpr hmax)]
    have hq : (ns : ℚ) * dt * 1000 / 1000 = (ns : ℚ) * dt := by
      field_simp
    rw [hq]
  · intro inp resname cutoff w h1 h2 h3 h4
    exact washing_cycle_no_wash inp resname cutoff ct w h1 h2 h3 h4

/-- Witness for `c5_duration_mismatch_warns_amended` at the concrete mdp and
a mismatched cycle time of 1 ns (the warning flag computes to `true`), plus
the concrete no-motion cycle completing with the engine invoked. -/
theorem c5_duration_mismatch_warns_amended_witness :
    validate_annealing_mdp wash_demo_mdp 1 =
      .ok (decide ((1 : ℚ) / 100 < |(1000 : ℕ) * mkRat 1 500 - 1|)) ∧
    washing_cycle wash_demo_inp "LIG" 6 1 =
      .ok ⟨3, 1, wash_demo_inp.npt, wash_demo_inp.topol, none, true⟩ := by
  obtain ⟨hv, hrun⟩ := c5_duration_mismatch_warns_amended wash_demo_mdp 1 1000
    (mkRat 1 500) 2000 [] rfl rfl rfl (by norm_num)
  refine ⟨hv, ?_⟩
  have hw : (decide ((1 : ℚ) / 100 < |(1000 : ℕ) * mkRat 1 500 - 1|)) = true := by
    norm_num
  exact hrun wash_demo_inp "LIG" 6 true rfl
    (by show validate_annealing_mdp wash_demo_mdp 1 = .ok true; rw [hv, hw]) (by decide)
    (washed_residues_self [wash_demo_atom] "LIG" 6 (by norm_num))

theorem renumber_atoms_from_length (l : List GAtom) :
    ∀ n : ℤ, (renumber_atoms_from n l).length = l.length := by
  induction l with
  | nil => intro n; rfl
  | cons a rest ih => intro n; simp [renumber_atoms_from, ih]

theorem renumber_atoms_from_ids (l : List GAtom) :
    ∀ s : ℕ, (renumber_atoms_from (s : ℤ) l).map (fun a => a.atom_id) =
      (List.range' s l.length).map (fun i => (i : ℤ)) := by
  induction l with
  | nil => intro s; simp [renumber_atoms_from]
  | cons a rest ih =>
    intro s
    simp only [renumber_atoms_from, List.map_cons, List.length_cons,
      List.range'_succ]
    refine congrArg₂ List.cons rfl ?_
    have h := ih (s + 1)
    push_cast at h
    exact h

theorem mem_renumber_atoms_from {a : GAtom} {l : List GAtom} :
    ∀ {n : ℤ}, a ∈ renumber_atoms_from n l →
      ∃ b ∈ l, a.residue_name = b.residue_name ∧ a.residue_id = b.residue_id := by
  induction l with
  | nil => intro n h; simp [renumber_atoms_from] at h
  | cons b rest ih =>
    intro n h
    simp only [renumber_atoms_from, List.mem_cons] at h
    rcases h with rfl | h
    · exact ⟨b, List.mem_cons_self _ _, rfl, rfl⟩
    · obtain ⟨c, hc, h1, h2⟩ := ih h
      exact ⟨c, List.mem_cons_of_mem _ hc, h1, h2⟩

theorem update_mol_lines_head (resname : List Char) (k : ℕ) (lig : List Char)
    (rest : List (List Char)) (p0 p1 : List Char) (ptail : List (List Char))
    (cnt : ℤ)
    (hsplit : pysplit lig = p0 :: p1 :: ptail)
    (hint : pyint p1 = some cnt)
    (hsub : containsSub resname lig = true)
    (hcom : is_comment_line lig = false) :
    update_mol_lines resname k (lig :: rest) =
      some (joinSpace (p0 :: intToChars (max 0 (cnt - (k : ℤ))) :: ptail)
        :: rest) := by
  unfold update_mol_lines try_update_mol_line
  rw [hsub, hcom, hsplit]
  simp [hint]

theorem update_mol_lines_append_none (resname : List Char) (k : ℕ)
    (scanned l : List (List Char))
    (hs : ∀ x ∈ scanned, try_update_mol_line resname k x = none) :
    update_mol_lines resname k (scanned ++ l) =
      (update_mol_lines resname k l).map (fun tail => scanned ++ tail) := by
  induction scanned with
  | nil =>
    simp only [List.nil_append]
    cases update_mol_lines resname k l <;> simp
  | cons s ss ih =>
    rw [List.cons_append]
    simp only [update_mol_lines]
    rw [hs s (by simp), ih (fun x hx => hs x (by simp [hx]))]
    cases update_mol_lines resname k l <;> simp

/-- Computation of `update_topology_file` on a topology whose ligand record
is the FIRST line accepted by the molecules-section scan: an arbitrary
prefix `A` free of `[ molecules ]`, the section-header line `mol`, the
unconditionally skipped line `sep` (`molecules_start = i + 2`), then scanned
lines that the update rejects, then the ligand record. -/
theorem update_topology_file_first_match (A : List (List Char))
    (mol sep lig : List Char) (scanned rest : List (List Char))
    (resname p0 p1 : List Char) (ptail : List (List Char)) (cnt : ℤ) (k : ℕ)
    (hA : ∀ l ∈ A, containsSub "[ molecules ]".toList l = false)
    (hmol : containsSub "[ molecules ]".toList mol = true)
    (hscan : ∀ l ∈ scanned, try_update_mol_line resname k l = none)
    (hsplit : pysplit lig = p0 :: p1 :: ptail)
    (hint : pyint p1 = some cnt)
    (hsub : containsSub resname lig = true)
    (hcom : is_comment_line lig = false) :
    update_topology_file (A ++ (mol :: sep :: (scanned ++ lig :: rest)))
        resname k =
      .ok (A ++ (mol :: sep :: (scanned ++
        joinSpace (p0 :: intToChars (max 0 (cnt - (k : ℤ))) :: ptail)
          :: rest))) := by
  have hAnone : A.findIdx? (fun l => containsSub "[ molecules ]".toList l) =
      none :=
    List.findIdx?_eq_none_iff.mpr hA
  have hfind : (A ++ (mol :: sep :: (scanned ++ lig :: rest))).findIdx?
      (fun l => containsSub "[ molecules ]".toList l) = some A.length := by
    rw [List.findIdx?_append, hAnone, List.findIdx?_cons, hmol]
    simp
  unfold update_topology_file
  rw [hfind]
  dsimp only
  have hdrop : (A ++ (mol :: sep :: (scanned ++ lig :: rest))).drop
      (A.length + 2) = scanned ++ lig :: rest := by
    rw [← List.drop_drop, List.drop_left]
    rfl
  have htake : (A ++ (mol :: sep :: (scanned ++ lig :: rest))).take
      (A.length + 2) = A ++ [mol, sep] := by
    rw [show A ++ (mol :: sep :: (scanned ++ lig :: rest)) =
      (A ++ [mol, sep]) ++ (scanned ++ lig :: rest) by simp]
    exact List.take_left' (by simp)
  rw [hdrop,
    update_mol_lines_append_none resname k scanned (lig :: rest) hscan,
    update_mol_lines_head resname k lig rest p0 p1 ptail cnt hsplit hint hsub
      hcom]
  rw [htake]
  simp

/-- Shared helper: a cycle that finds ligands and washes at least one residue
away runs the engine and then either raises the topology-update error or
returns the rewritten files: `filtered.gro` with the surviving final-frame
atoms (pre-renumbering ids), the updated topology, and `npt.gro` with those
atoms renumbered from 1. -/
theorem washing_cycle_wash_run (inp : WashInput) (resname : String)
    (cutoff ct : ℚ) (w : Bool) (W : List ℤ) (fil : List GAtom)
    (h1 : inp.files_present = true)
    (h2 : validate_annealing_mdp inp.mdp ct = .ok w)
    (h3 : ligand_res_ids inp.npt.atoms resname ≠ [])
    (hW : W = washed_residues inp.npt.atoms inp.final_frame resname cutoff)
    (h4 : W ≠ [])
    (hfil : fil = inp.final_frame.filter fun a => !evicted_atom resname W a) :
    washing_cycle inp resname cutoff ct =
      match update_topology_file inp.topol resname.toList W.length with
      | .error e => .error e
      | .ok topol2 =>
        .ok ⟨3, 2, ⟨inp.npt.header, renumber_atoms_from 1 fil, inp.npt.footer⟩,
          topol2, some ⟨inp.npt.header, fil, inp.npt.footer⟩, w⟩ := by
  subst hW
  subst hfil
  unfold washing_cycle
  rw [h1, h2]
  simp only [Bool.true_eq_false, if_false, if_neg h3, if_neg h4]

/-- Initial snapshot for the C7 inputs: one ligand residue and one protein
atom. -/
def c7_init_atoms : List GAtom :=
  [⟨1, "C1", "LIG", 1, ((0 : ℚ), (0 : ℚ), (0 : ℚ))⟩,
   ⟨2, "CA", "PRO", 1, ((0 : ℚ), (0 : ℚ), (0 : ℚ))⟩]

/-- Final frame for the C7 inputs: the ligand drifted to x = 100. -/
def c7_fin_atoms : List GAtom :=
  [⟨1, "C1", "LIG", 1, ((100 : ℚ), (0 : ℚ), (0 : ℚ))⟩,
   ⟨2, "CA", "PRO", 1, ((0 : ℚ), (0 : ℚ), (0 : ℚ))⟩]

/-- The filtered atom list of the C7 inputs: the ligand atom removed. -/
def c7_fil : List GAtom := [⟨2, "CA", "PRO", 1, ((0 : ℚ), (0 : ℚ), (0 : ℚ))⟩]

theorem c7_washed_eval :
    washed_residues c7_init_atoms c7_fin_atoms "LIG" 6 = [1] := by
  rw [washed_residues_eq_filter]
  norm_num +decide [ligand_res_ids, residue_atoms, c7_init_atoms,
    c7_fin_atoms, code_displacement_sq, csum, dist2, sqrtGtQ,
    List.filter_cons, List.filter_nil]

theorem c7_fil_eval :
    c7_fin_atoms.filter (fun a => !evicted_atom "LIG" [1] a) = c7_fil := by
  simp +decide [c7_fil, c7_fin_atoms, evicted_atom, List.filter_cons]

theorem wash_demo_mdp_validate2 :
    validate_annealing_mdp wash_demo_mdp 2 = .ok false := by
  norm_num [validate_annealing_mdp, wash_demo_mdp, pymax]

/-- Input whose topology places the ligand record directly after the
`[ molecules ]` header. -/
def c7b_inp : WashInput :=
  ⟨true, wash_demo_mdp, ⟨"washing demo".toList, c7_init_atoms, "box".toList⟩,
    ["[ molecules ]".toList, "LIG 5".toList, "SOL 100".toList],
    c7_fin_atoms⟩

/-- Input whose molecules section lists a molecule named `Protein_LIG`
before the ligand record. -/
def c7c_inp : WashInput :=
  ⟨true, wash_demo_mdp, ⟨"washing demo".toList, c7_init_atoms, "box".toList⟩,
    ["[ molecules ]".toList, "; name count".toList, "Protein_LIG 3".toList,
      "LIG 5".toList],
    c7_fin_atoms⟩

/-- C7 counterexample: two evicting cycles on ordinary topologies where the
claimed mutations do NOT happen.  First, with the ligand record placed
immediately after the `[ molecules ]` header, `molecules_start = i + 2`
skips it, no molecules line matches, and the cycle raises the ValueError
instead of decrementing anything (so no snapshot is rewritten either).
Second, with a record `Protein_LIG 3` listed before `LIG 5`, the substring
scan decrements the WRONG molecule (`Protein_LIG 3` becomes `Protein_LIG 2`)
while the ligand count stays 5, although one `LIG` residue was evicted. -/
theorem c7_topology_shape_counterexample :
    washing_cycle c7b_inp "LIG" 6 2 =
      .error "Could not find ligand in molecules section" ∧
    washing_cycle c7c_inp "LIG" 6 2 =
      .ok ⟨3, 2,
        ⟨c7c_inp.npt.header, renumber_atoms_from 1 c7_fil, c7c_inp.npt.footer⟩,
        ["[ molecules ]".toList, "; name count".toList,
          "Protein_LIG 2".toList, "LIG 5".toList],
        some ⟨c7c_inp.npt.header, c7_fil, c7c_inp.npt.footer⟩, false⟩ := by
  constructor
  · rw [washing_cycle_wash_run c7b_inp "LIG" 6 2 false [1] c7_fil rfl
      wash_demo_mdp_validate2 (by decide) c7_washed_eval.symm (by decide)
      c7_fil_eval.symm]
    have ht : update_topology_file c7b_inp.topol "LIG".toList
        ([1] : List ℤ).length =
        .error "Could not find ligand in molecules section" := by rfl
    rw [ht]
  · rw [washing_cycle_wash_run c7c_inp "LIG" 6 2 false [1] c7_fil rfl
      wash_demo_mdp_validate2 (by decide) c7_washed_eval.symm (by decide)
      c7_fil_eval.symm]
    have ht : update_topology_file c7c_inp.topol "LIG".toList
        ([1] : List ℤ).length =
        .ok ["[ molecules ]".toList, "; name count".toList,
          "Protein_LIG 2".toList, "LIG 5".toList] := by rfl
    rw [ht]

/-- C7 (amended): a washing cycle that evicts at least one residue, PROVIDED
the first line accepted by the molecules-section scan — which starts two
lines past the first line containing `[ molecules ]` and accepts the first
scanned line that contains the residue name, is not a comment, and has an
integer second token — is the ligand record itself.  Then the cycle
succeeds and: the rewritten `npt.gro` holds exactly the non-evicted atoms of
the final frame renumbered from 1 (so no atom of any evicted residue
remains); its serials are exactly `1..N` and its atom count (the written
count line is `len(atoms)`) satisfies `N + evicted_atom_count =
original_count`; `filtered.gro` was written; and the topology's ligand count
is decremented by the number of evicted residues, floored at zero.  Without
the proviso the code diverges (see the counterexample): a ligand record
adjacent to the section header is skipped and the cycle raises, and an
earlier line containing the residue name as a substring is decremented
instead. -/
theorem c7_eviction_rewrites_snapshot_and_topology
    (inp : WashInput) (resname : String) (cutoff ct : ℚ) (w : Bool)
    (A : List (List Char)) (mol sep lig : List Char)
    (scanned rest : List (List Char))
    (p0 p1 : List Char) (ptail : List (List Char)) (cnt : ℤ)
    (W : List ℤ) (fil : List GAtom)
    (h1 : inp.files_present = true)
    (h2 : validate_annealing_mdp inp.mdp ct = .ok w)
    (h3 : ligand_res_ids inp.npt.atoms resname ≠ [])
    (hW : W = washed_residues inp.npt.atoms inp.final_frame resname cutoff)
    (h4 : W ≠ [])
    (h5 : inp.topol = A ++ (mol :: sep :: (scanned ++ lig :: rest)))
    (hA : ∀ l ∈ A, containsSub "[ molecules ]".toList l = false)
    (hmol : containsSub "[ molecules ]".toList mol = true)
    (hscan : ∀ l ∈ scanned, try_update_mol_line resname.toList W.length l = none)
    (hsplit : pysplit lig = p0 :: p1 :: ptail)
    (hint : pyint p1 = some cnt)
    (hsub : containsSub resname.toList lig = true)
    (hcom : is_comment_line lig = false)
    (hfil : fil = inp.final_frame.filter fun a => !evicted_atom resname W a) :
    washing_cycle inp resname cutoff ct =
      .ok ⟨3, 2, ⟨inp.npt.header, renumber_atoms_from 1 fil, inp.npt.footer⟩,
        A ++ (mol :: sep :: (scanned ++
          joinSpace (p0 :: intToChars (max 0 (cnt - (W.length : ℤ))) :: ptail)
            :: rest)),
        some ⟨inp.npt.header, fil, inp.npt.footer⟩, w⟩ ∧
    (∀ a ∈ renumber_atoms_from 1 fil, evicted_atom resname W a = false) ∧
    (renumber_atoms_from 1 fil).map (fun a => a.atom_id) =
      (List.range' 1 fil.length).map (fun i => (i : ℤ)) ∧
    (renumber_atoms_from 1 fil).length +
        (inp.final_frame.filter (evicted_atom resname W)).length =
      inp.final_frame.length := by
  refine ⟨?_, ?_, by simpa using renumber_atoms_from_ids fil 1, ?_⟩
  · rw [washing_cycle_wash_run inp resname cutoff ct w W fil h1 h2 h3 hW h4
      hfil]
    rw [h5, update_topology_file_first_match A mol sep lig scanned rest
      resname.toList p0 p1 ptail cnt W.length hA hmol hscan hsplit hint hsub
      hcom]
  · intro a ha
    obtain ⟨b, hb, hn, hi⟩ := mem_renumber_atoms_from ha
    rw [hfil] at hb
    have hbf := (List.mem_filter.mp hb).2
    rw [Bool.not_eq_true'] at hbf
    unfold evicted_atom at hbf ⊢
    rw [hn, hi]
    exact hbf
  · rw [renumber_atoms_from_length, hfil]
    have := List.length_eq_length_filter_add
      (l := inp.final_frame) (evicted_atom resname W)
    omega

/-- The washing-cycle input for the C7 witness: a comment line before the
molecules section, a non-matching record `Protein 1` scanned before the
ligand record `LIG 5`, and `SOL 100` after it. -/
def c7_inp : WashInput :=
  ⟨true, wash_demo_mdp, ⟨"washing demo".toList, c7_init_atoms, "box".toList⟩,
    ["; forcefield params".toList, "[ molecules ]".toList,
      "; name count".toList, "Protein 1".toList, "LIG 5".toList,
      "SOL 100".toList],
    c7_fin_atoms⟩

/-- Witness for `c7_eviction_rewrites_snapshot_and_topology`: the concrete
cycle evicts residue 1 (displacement 100 > 6), rewrites `npt.gro` to the
renumbered protein atom, writes `filtered.gro`, scans past `Protein 1`, and
decrements `LIG 5` to `LIG 4` in the topology. -/
theorem c7_eviction_rewrites_snapshot_and_topology_witness :
    washing_cycle c7_inp "LIG" 6 2 =
      .ok ⟨3, 2,
        ⟨c7_inp.npt.header, renumber_atoms_from 1 c7_fil, c7_inp.npt.footer⟩,
        ["; forcefield params".toList] ++ ("[ molecules ]".toList ::
          "; name count".toList :: (["Protein 1".toList] ++
            joinSpace ("LIG".toList ::
              intToChars (max 0 ((5 : ℤ) -
                ((([1] : List ℤ).length : ℕ) : ℤ))) ::
              ([] : List (List Char))) :: ["SOL 100".toList])),
        some ⟨c7_inp.npt.header, c7_fil, c7_inp.npt.footer⟩, false⟩ ∧
    (∀ a ∈ renumber_atoms_from 1 c7_fil, evicted_atom "LIG" [1] a = false) ∧
    (renumber_atoms_from 1 c7_fil).map (fun a => a.atom_id) =
      (List.range' 1 c7_fil.length).map (fun i => (i : ℤ)) ∧
    (renumber_atoms_from 1 c7_fil).length +
        (c7_inp.final_frame.filter (evicted_atom "LIG" [1])).length =
      c7_inp.final_frame.length :=
  c7_eviction_rewrites_snapshot_and_topology c7_inp "LIG" 6 2 false
    ["; forcefield params".toList] "[ molecules ]".toList
    "; name count".toList "LIG 5".toList ["Protein 1".toList]
    ["SOL 100".toList] "LIG".toList "5".toList [] 5 [1] c7_fil
    rfl
    wash_demo_mdp_validate2
    (by decide)
    c7_washed_eval.symm
    (by decide)
    rfl
    (by decide)
    (by decide)
    (by decide)
    (by decide)
    (by decide)
    (by decide)
    (by decide)
    c7_fil_eval.symm
